import Mathlib

/-!
Verification development for the `coa` alarm-derivation pipeline.

The definitions below are a shallow embedding of
`src/lambda/functions/build_alarm_config/app.py`: the Lambda that expands a
resource's monitoring tags plus a DynamoDB template catalog into fully
resolved alarm candidates.  Python dictionaries with a known field set become
structures with `Option` fields for possibly-missing keys; scalar dictionary
values become the `Val` type (strings and integers); Python exceptions become
`Except Unit`; the DynamoDB table, the SSM client and the clock are passed in
as explicit function parameters.  String helpers are re-implemented over
character lists so that every definition reduces inside the kernel; they
mirror the semantics of the corresponding Python `str` methods on the ASCII
inputs this code manipulates.
-/

namespace COA

/-- Splits a character list at every character satisfying `p`, keeping empty
groups, mirroring Python `str.split(sep)` group structure. -/
def chSplitP (p : Char → Bool) : List Char → List (List Char)
  | [] => [[]]
  | c :: cs =>
    let r := chSplitP p cs
    if p c then [] :: r
    else
      match r with
      | [] => [[c]]
      | g :: gs => (c :: g) :: gs

/-- Python `s.split(sep)` for a one-character separator: empty pieces are
kept, and splitting the empty string yields `[""]`. -/
def pySplit (sep : Char) (s : String) : List String :=
  (chSplitP (fun c => c = sep) s.data).map (fun cs => String.mk cs)

/-- Python `s.split()` (no separator): split on whitespace runs and drop the
empty pieces. -/
def pyWsSplit (s : String) : List String :=
  ((chSplitP Char.isWhitespace s.data).filter (fun cs => cs ≠ [])).map
    (fun cs => String.mk cs)

/-- Python `s.lower()` restricted to ASCII, which is all this code feeds it. -/
def pyLower (s : String) : String :=
  String.mk (s.data.map Char.toLower)

/-- Python `s.strip()`: drop whitespace from both ends. -/
def pyStrip (s : String) : String :=
  String.mk (((s.data.dropWhile Char.isWhitespace).reverse.dropWhile
    Char.isWhitespace).reverse)

/-- Python `s.splitlines()` for LF-separated text, the shape produced by the
remote shell commands this code parses.  A trailing newline contributes a
final empty piece, which the disk parser skips, so the group structure is
observably the one `splitlines` yields. -/
def pySplitLines (s : String) : List String :=
  pySplit (Char.ofNat 10) s

/-- `os.path.basename` for POSIX paths: the part after the last slash. -/
def pyBasename (s : String) : String :=
  (pySplit (Char.ofNat 47) s).getLastD ""

/-- A scalar value stored in a tag, a DynamoDB attribute or an event field:
the code only ever manipulates strings and numbers there. -/
inductive Val where
  | str : String → Val
  | num : Int → Val
deriving DecidableEq

/-- Python `str(v)` on a `Val`. -/
def Val.pyStr : Val → String
  | .str s => s
  | .num n => toString n

/-- Python truthiness of a `Val`: the empty string and zero are falsy. -/
def Val.pyTruthy : Val → Bool
  | .str s => s ≠ ""
  | .num n => n ≠ 0

/-- One dimension dictionary as stored in the catalog or built by the
resolver; the `Name` and `Value` keys may each be absent. -/
structure Dim where
  name : Option Val
  value : Option Val
deriving DecidableEq

/-- An entry of a template's `dimensions` list: the code tolerates (and
skips) entries that are not dictionaries. -/
inductive DimEntry where
  | dict : Dim → DimEntry
  | nondict : DimEntry
deriving DecidableEq

/-- An entry of a template's `thresholds` list.  `dict p th cr` is a
dictionary whose `priority` / `threshold` / `criticality` keys may each be
absent; `arr` is a list- or tuple-shaped entry; `other` is any other shape,
which the code ignores. -/
inductive Tier where
  | dict : Option Val → Option Val → Option Val → Tier
  | arr : List Val → Tier
  | other : Tier
deriving DecidableEq

/-- One record of the `AlarmConfigTable` DynamoDB model. -/
structure TableItem where
  namespace_ : String
  extended_statistic : Option String
  alarm_description : String
  comparison_operator : String
  actions_enabled : Bool
  thresholds : List Tier
  dimensions : List DimEntry
  datapoints_to_alarm : Int
  evaluation_periods : Int
  period : Int
  treat_missing_data : String
  statistic : Option String
deriving DecidableEq

/-- The template catalog: `load_table_item` abstracted as a lookup that
returns `none` both for a missing record and for a load error. -/
abbrev Catalog := String → String → Option TableItem

/-- The fields of the invocation event that `build_alarm_config` reads.
`Option` distinguishes a missing key (`event.get` returns `None`).  `tags`
is the map found at `event["detail"]["tags"]`; `metadata` is
`event["metadata"]`.  Python dictionaries preserve insertion order, so both
are association lists. -/
structure Event where
  account : Option String
  region : Option String
  account_alias : Option String
  service : Option String
  resource_type : Option String
  resource_id : Option String
  identifier : Option String
  metadata : List (String × Val)
  tags : List (String × String)

/-- The environment variables consulted by the tag loop and the disk
fan-out; each may be unset. -/
structure Env where
  EC2LINUXDISK_TAG : Option String
  EC2WINDOWSDISK_TAG : Option String

/-- A fully built alarm dictionary, as returned by `get_table_item`. -/
structure Item where
  priority : String
  metric : String
  service : String
  threshold : Val
  criticality : Val
  actions_enabled : Bool
  comparison_operator : String
  datapoints_to_alarm : Int
  dimensions : List Dim
  evaluation_periods : Int
  namespace_ : String
  period : Int
  statistic : Option String
  treat_missing_data : String
  alarm_description : String
  alarm_name : String
  action_topic_arn : List String
deriving DecidableEq

/-- The record the tag loop accumulates for a disk-metric tag before disks
are known. -/
structure DiskMeta where
  service : String
  metric : String
  priority_token : String
  tag_value : String
deriving DecidableEq

/-- One step of the threshold-override loop of `get_table_item`
(`app.py` lines 209-222).  The state is the current `threshold` value
together with the current `criticality` key (absent until first set).  A
dictionary tier matching the priority token replaces the threshold only when
the current threshold lowercases to `"true"` and the tier carries a
`threshold` key, and it installs the tier's `criticality` whenever that key
is present; a list/tuple tier of length at least two replaces the threshold
under the same `"true"` test and only defaults the criticality; any other
entry is ignored. -/
def applyThreshold (priority_token : String) (st : Val × Option Val) (t : COA.Tier) :
    Val × Option Val :=
  match t with
  | .dict p th cr =>
    if p = some (Val.str priority_token) then
      let th' := if pyLower st.1.pyStr = "true" then
          (match th with
           | some v => v
           | none => st.1)
        else st.1
      let cr' := match cr with
        | some c => some c
        | none => st.2
      (th', cr')
    else st
  | .arr l =>
    if 2 ≤ l.length then
      if l.getD 0 (Val.str "") = Val.str priority_token ∧ pyLower st.1.pyStr = "true" then
        (l.getD 1 (Val.str ""),
         match st.2 with
         | some c => some c
         | none => some (Val.str priority_token))
      else st
    else st
  | .other => st

/-- The whole threshold-override pass: fold `applyThreshold` over the
template's tiers starting from the raw tag value with no criticality, then
apply the final `item.setdefault("criticality", priority_token)`
(`app.py` line 224).  Returns the resolved `(threshold, criticality)`. -/
def resolveThresholds (thresholds : List COA.Tier) (priority_token tag_value : String) :
    Val × Val :=
  let st := thresholds.foldl (applyThreshold priority_token) (Val.str tag_value, none)
  (st.1,
   match st.2 with
   | some c => c
   | none => Val.str priority_token)

/-- Binding of a single dimension dictionary (`app.py` lines 232-238): a
dimension named like the identifier gets the resource id; otherwise a
dimension whose name is a key of the metadata map gets that override;
otherwise it is left as is. -/
def bindDim (identifier resource_id : String) (metadata : List (String × Val))
    (d : COA.Dim) : COA.Dim :=
  if d.name = some (Val.str identifier) then { d with value := some (Val.str resource_id) }
  else
    match d.name with
    | some (Val.str s) =>
      match metadata.lookup s with
      | some v => { d with value := some v }
      | none => d
    | _ => d

/-- The dimension-binding loop of `get_table_item` (`app.py` lines 227-244):
non-dictionary entries are skipped, each dictionary is bound with `bindDim`,
and it is kept exactly when it ends up with a `Value` key. -/
def bindDimensions (identifier resource_id : String) (metadata : List (String × Val)) :
    List COA.DimEntry → List COA.Dim
  | [] => []
  | .nondict :: rest => bindDimensions identifier resource_id metadata rest
  | .dict d :: rest =>
    let b := bindDim identifier resource_id metadata d
    if b.value.isSome then b :: bindDimensions identifier resource_id metadata rest
    else bindDimensions identifier resource_id metadata rest

/-- The dimensions appended during disk fan-out (`app.py` lines 246-249):
one `{Name: key, Value: value}` per entry of the disk dictionary, in
insertion order. -/
def diskDims (disk : List (String × String)) : List COA.Dim :=
  disk.map (fun kv => { name := some (Val.str kv.1), value := some (Val.str kv.2) })

/-- Whether a dimension's name is `path` or `LogicalDisk`
(`app.py` line 266). -/
def isTargetDim (d : COA.Dim) : Bool :=
  d.name = some (Val.str "path") || d.name = some (Val.str "LogicalDisk")

/-- `build_alarm_name` (`app.py` lines 262-289).  The first dimension named
`path` or `LogicalDisk` supplies `found_value`; reading its missing `Value`
key would raise, which the function re-raises (`Except.error`).  A truthy
`found_value` selects the quoted-qualifier format; event fields are read
with `event.get(key, "")`. -/
def build_alarm_name (ev : COA.Event) (metric : String) (criticality : Val)
    (dims : List COA.Dim) : Except Unit String :=
  let base := (ev.account_alias.getD "") ++ "-" ++ (ev.account.getD "") ++ "-" ++
    (ev.service.getD "") ++ "-" ++ (ev.resource_type.getD "") ++ "-" ++
    (ev.resource_id.getD "") ++ "-" ++ metric
  match dims.find? isTargetDim with
  | some d =>
    match d.value with
    | none => Except.error ()
    | some v =>
      if v.pyTruthy then
        Except.ok (base ++ "-\x27" ++ v.pyStr ++ "\x27-Severity: " ++ criticality.pyStr)
      else Except.ok (base ++ "-Severity: " ++ criticality.pyStr)
  | none => Except.ok (base ++ "-Severity: " ++ criticality.pyStr)

/-- `build_action_topic_arn` (`app.py` lines 293-304): reads
`event["region"]` and `event["account"]` with subscription, so a missing key
raises `KeyError`, which the function re-raises. -/
def build_action_topic_arn (ev : COA.Event) (priority : String) : Except Unit (List String) :=
  match ev.region, ev.account with
  | some region, some account =>
    Except.ok ["arn:aws:sns:" ++ region ++ ":" ++ account ++
      ":Rebura-CentralisedObservabilityAutomationTopic" ++ priority ++ "-" ++ region]
  | _, _ => Except.error ()

/-- The dimension list `get_table_item` ends up with (`app.py` lines
227-251): the bound dimensions, extended with the disk dimensions when a
disk is given and the metric is one of the two disk-metric environment
tags. -/
def gtiDims (env : COA.Env) (metric identifier resource_id : String) (ev : COA.Event)
    (table_item : COA.TableItem) (disk : Option (List (String × String))) : List COA.Dim :=
  match disk with
  | some d =>
    if some metric = env.EC2LINUXDISK_TAG ∨ some metric = env.EC2WINDOWSDISK_TAG then
      bindDimensions identifier resource_id ev.metadata table_item.dimensions ++ diskDims d
    else bindDimensions identifier resource_id ev.metadata table_item.dimensions
  | none => bindDimensions identifier resource_id ev.metadata table_item.dimensions

/-- `get_table_item` (`app.py` lines 170-257): load the template, seed the
candidate, run the threshold pass, bind dimensions, append the disk
dimensions when a disk is given and the metric is one of the two disk-metric
environment tags, then derive the alarm name and the action topic ARN.  A
missing template yields `none`; an exception in either builder propagates. -/
def get_table_item (env : COA.Env) (catalog : COA.Catalog)
    (service metric priority_token tag_value identifier resource_id : String)
    (ev : COA.Event) (disk : Option (List (String × String))) :
    Except Unit (Option COA.Item) :=
  match catalog service metric with
  | none => Except.ok none
  | some table_item =>
    let tc := resolveThresholds table_item.thresholds priority_token tag_value
    let dims := gtiDims env metric identifier resource_id ev table_item disk
    match build_alarm_name ev metric tc.2 dims with
    | Except.error e => Except.error e
    | Except.ok nm =>
      match build_action_topic_arn ev priority_token with
      | Except.error e => Except.error e
      | Except.ok arns =>
        Except.ok (some
          { priority := priority_token
            metric := metric
            service := service
            threshold := tc.1
            criticality := tc.2
            actions_enabled := table_item.actions_enabled
            comparison_operator := table_item.comparison_operator
            datapoints_to_alarm := table_item.datapoints_to_alarm
            dimensions := dims
            evaluation_periods := table_item.evaluation_periods
            namespace_ := table_item.namespace_
            period := table_item.period
            statistic := table_item.statistic
            treat_missing_data := table_item.treat_missing_data
            alarm_description := table_item.alarm_description
            alarm_name := nm
            action_topic_arn := arns })

/-- Parsing of one tag key (`app.py` lines 131-135): split on `:`; fewer
than three pieces means the key is skipped; otherwise the last three pieces
are `(service, metric, priority_token)`. -/
def parseTagKey (k : String) : Option (String × String × String) :=
  let parts := pySplit (Char.ofNat 58) k
  if parts.length < 3 then none
  else
    let r := parts.reverse
    some (r.getD 2 "", r.getD 1 "", r.getD 0 "")

/-- The tag loop of `get_alarms` (`app.py` lines 130-149), accumulating the
direct alarms and the disk-metric metadata in order.  A priority token
outside `{P1, P2, P3}` skips the key; a disk-metric key is diverted to the
metadata accumulator; otherwise the table item is built, `none` results are
skipped, and exceptions propagate. -/
def tagLoop (env : COA.Env) (catalog : COA.Catalog) (identifier resource_id : String)
    (ev : COA.Event) :
    List (String × String) → List COA.Item → List COA.DiskMeta →
    Except Unit (List COA.Item × List COA.DiskMeta)
  | [], alarms, dmd => Except.ok (alarms, dmd)
  | (k, v) :: rest, alarms, dmd =>
    match parseTagKey k with
    | none => tagLoop env catalog identifier resource_id ev rest alarms dmd
    | some (service, metric, priority_token) =>
      if priority_token = "P1" ∨ priority_token = "P2" ∨ priority_token = "P3" then
        if some metric = env.EC2LINUXDISK_TAG ∨ some metric = env.EC2WINDOWSDISK_TAG then
          tagLoop env catalog identifier resource_id ev rest alarms
            (dmd ++ [{ service := service, metric := metric,
                       priority_token := priority_token, tag_value := v }])
        else
          match get_table_item env catalog service metric priority_token v identifier
              resource_id ev none with
          | Except.error e => Except.error e
          | Except.ok none => tagLoop env catalog identifier resource_id ev rest alarms dmd
          | Except.ok (some a) =>
            tagLoop env catalog identifier resource_id ev rest (alarms ++ [a]) dmd
      else tagLoop env catalog identifier resource_id ev rest alarms dmd

/-- The inner loop of the disk fan-out (`app.py` lines 153-164): one
`get_table_item` call per accumulated disk-metric record, for a fixed
disk. -/
def diskMetaLoop (env : COA.Env) (catalog : COA.Catalog) (identifier resource_id : String)
    (ev : COA.Event) (disk : List (String × String)) :
    List COA.DiskMeta → List COA.Item → Except Unit (List COA.Item)
  | [], alarms => Except.ok alarms
  | m :: rest, alarms =>
    match get_table_item env catalog m.service m.metric m.priority_token m.tag_value
        identifier resource_id ev (some disk) with
    | Except.error e => Except.error e
    | Except.ok none => diskMetaLoop env catalog identifier resource_id ev disk rest alarms
    | Except.ok (some a) =>
      diskMetaLoop env catalog identifier resource_id ev disk rest (alarms ++ [a])

/-- The outer loop of the disk fan-out (`app.py` lines 152-164): for each
disk, run the metadata loop. -/
def diskLoop (env : COA.Env) (catalog : COA.Catalog) (identifier resource_id : String)
    (ev : COA.Event) (dmd : List COA.DiskMeta) :
    List (List (String × String)) → List COA.Item → Except Unit (List COA.Item)
  | [], alarms => Except.ok alarms
  | d :: rest, alarms =>
    match diskMetaLoop env catalog identifier resource_id ev d dmd alarms with
    | Except.error e => Except.error e
    | Except.ok alarms' => diskLoop env catalog identifier resource_id ev dmd rest alarms'

/-- `get_alarms` (`app.py` lines 115-166): a falsy (`None` or empty)
identifier or resource id returns the empty list at once; otherwise the tag
loop runs, and when the disk list is non-empty the disk fan-out runs over
the accumulated disk-metric records. -/
def get_alarms (env : COA.Env) (catalog : COA.Catalog) (ev : COA.Event)
    (disks : List (List (String × String))) : Except Unit (List COA.Item) :=
  match ev.identifier, ev.resource_id with
  | some identifier, some resource_id =>
    if identifier = "" ∨ resource_id = "" then Except.ok []
    else
      match tagLoop env catalog identifier resource_id ev ev.tags [] [] with
      | Except.error e => Except.error e
      | Except.ok (alarms, dmd) =>
        if disks = [] then Except.ok alarms
        else diskLoop env catalog identifier resource_id ev dmd disks alarms
  | _, _ => Except.ok []

/-- Python `list.remove(x)`: drop the first element equal to `x`. -/
def removeFirst (x : COA.Dim) : List COA.Dim → List COA.Dim
  | [] => []
  | d :: ds => if d = x then ds else d :: removeFirst x ds

/-- CPython semantics of `for dimension in lst: if cond: lst.remove(dimension)`
(`app.py` lines 105-107): the iterator keeps a cursor `k` that advances on
every step even when a removal shifts the remaining elements left, so the
element after a removed one is skipped.  Reading a missing `Name` or `Value`
key raises (`Except.error`).  The cursor grows by one per step and the list
never grows, so `l.length` steps of fuel are exactly enough: when the fuel
runs out the cursor is at least the current length and the loop is over. -/
def pyNameValLoopAux : Nat → List COA.Dim → Nat → Except Unit (List COA.Dim)
  | 0, l, _ => Except.ok l
  | fuel + 1, l, k =>
    if h : k < l.length then
      let d := l.get ⟨k, h⟩
      match d.name, d.value with
      | some nm, some v =>
        if nm = v then pyNameValLoopAux fuel (removeFirst d l) (k + 1)
        else pyNameValLoopAux fuel l (k + 1)
      | _, _ => Except.error ()
    else Except.ok l

/-- The handler's post-filter over one alarm's dimension list
(`app.py` lines 105-107). -/
def pyNameValLoop (l : List COA.Dim) : Except Unit (List COA.Dim) :=
  pyNameValLoopAux l.length l 0

/-- The handler's pass over all alarms (`app.py` lines 104-107), replacing
each alarm's dimension list by the filtered one. -/
def filterAlarmDims : List COA.Item → Except Unit (List COA.Item)
  | [] => Except.ok []
  | a :: rest =>
    match pyNameValLoop a.dimensions with
    | Except.error e => Except.error e
    | Except.ok ds =>
      match filterAlarmDims rest with
      | Except.error e => Except.error e
      | Except.ok rest' => Except.ok ({ a with dimensions := ds } :: rest')

/-- The alarm-config portion of `lambda_handler` (`app.py` lines 103-108):
`get_alarms` followed by the dimension post-filter, with the discovered
disks passed in. -/
def lambda_handler_alarm_config (env : COA.Env) (catalog : COA.Catalog) (ev : COA.Event)
    (disks : List (List (String × String))) : Except Unit (List COA.Item) :=
  match get_alarms env catalog ev disks with
  | Except.error e => Except.error e
  | Except.ok alarms => filterAlarmDims alarms

/-- The response of one `get_command_invocation` call. -/
structure SsmResp where
  status : String
  standardOutputContent : String
deriving DecidableEq

/-- Parsing of one line of Linux `df` output (`app.py` lines 370-380):
whitespace-split; fewer than three fields skips the line; otherwise the
basename of the device plus the filesystem type and the mount path. -/
def parseLinuxLine (line : String) : Option (List (String × String)) :=
  let parts := pyWsSplit line
  if parts.length < 3 then none
  else some [("device", pyBasename (parts.getD 0 "")), ("fstype", parts.getD 1 ""),
             ("path", parts.getD 2 "")]

/-- The parsing loop of `discover_disks` (`app.py` lines 364-385): strip
each line, skip empty ones, parse Linux lines into three-field
dictionaries, and turn every Windows line into a `LogicalDisk` entry. -/
def parseDiskOutput (os_type : String) (result : String) : List (List (String × String)) :=
  ((pySplitLines result).map pyStrip).foldl
    (fun disks line =>
      if line = "" then disks
      else if pyLower os_type = "linux" then
        match parseLinuxLine line with
        | some d => disks ++ [d]
        | none => disks
      else disks ++ [[("LogicalDisk", line)]]) []

/-- `discover_disks` (`app.py` lines 332-389).  `send_command` is the
submission result; `get_command_invocation` maps the number of seconds
elapsed since submission to that call's outcome.  The code sleeps five
seconds once, reads the invocation a single time, ignores its `Status`
field entirely, and parses whatever `StandardOutputContent` it carries; any
client error yields the empty disk list. -/
def discover_disks (os_type : String) (send_command : Except Unit Unit)
    (get_command_invocation : Nat → Except Unit SsmResp) :
    List (List (String × String)) :=
  match send_command with
  | Except.error _ => []
  | Except.ok _ =>
    match get_command_invocation 5 with
    | Except.error _ => []
    | Except.ok output => parseDiskOutput os_type output.standardOutputContent

/-- The alarm-name template exactly as the specification words it:
`{accountAlias}-{accountId}-{service}-{resourceType}-{resourceId}-{metric}`
followed by `-'{diskQualifier}'` when a qualifier is given, then
`-Severity: {criticality}`. -/
def specAlarmName (accountAlias accountId service resourceType resourceId metric : String)
    (diskQualifier : Option String) (criticality : String) : String :=
  match diskQualifier with
  | some q => accountAlias ++ "-" ++ accountId ++ "-" ++ service ++ "-" ++ resourceType ++
      "-" ++ resourceId ++ "-" ++ metric ++ "-\x27" ++ q ++ "\x27-Severity: " ++ criticality
  | none => accountAlias ++ "-" ++ accountId ++ "-" ++ service ++ "-" ++ resourceType ++
      "-" ++ resourceId ++ "-" ++ metric ++ "-Severity: " ++ criticality

/-- The disk qualifier the built name actually carries: the value of the
first dimension named `path` or `LogicalDisk`, and only when that value is
truthy. -/
def qualifierOf (dims : List COA.Dim) : Option String :=
  match dims.find? isTargetDim with
  | some d =>
    match d.value with
    | some v => if v.pyTruthy then some v.pyStr else none
    | none => none
  | none => none

/-- Whether a threshold entry takes either active branch of the override
loop for the given priority token: a dictionary whose `priority` key equals
the token, or a list of length at least two whose head equals the token. -/
def tierMatches (priority_token : String) : COA.Tier → Bool
  | .dict p _ _ => p = some (Val.str priority_token)
  | .arr l => decide (2 ≤ l.length) && decide (l.getD 0 (Val.str "") = Val.str priority_token)
  | .other => false

/-- A non-matching threshold entry leaves the override state unchanged. -/
theorem applyThreshold_no_match (priority_token : String) (st : Val × Option Val)
    (t : COA.Tier) (h : tierMatches priority_token t = false) :
    applyThreshold priority_token st t = st := by
  cases t with
  | dict p th cr =>
    simp only [tierMatches, decide_eq_false_iff_not] at h
    simp [applyThreshold, h]
  | arr l =>
    simp only [tierMatches, Bool.and_eq_false_iff, decide_eq_false_iff_not] at h
    rcases h with h | h
    · simp [applyThreshold, h]
    · by_cases hl : 2 ≤ l.length
      · simp only [applyThreshold]
        rw [if_pos hl, if_neg (fun hc => h hc.1)]
      · simp [applyThreshold, hl]
  | other => rfl

/-- Folding the override step over a run of non-matching entries is the
identity. -/
theorem foldl_applyThreshold_no_match (priority_token : String) (st : Val × Option Val)
    (ts : List COA.Tier) (h : ∀ t ∈ ts, tierMatches priority_token t = false) :
    ts.foldl (applyThreshold priority_token) st = st := by
  induction ts generalizing st with
  | nil => rfl
  | cons t ts ih =>
    rw [List.foldl_cons, applyThreshold_no_match priority_token st t (h t (by simp))]
    exact ih st (fun t' ht' => h t' (by simp [ht']))

/-- When the unique matching tier is a dictionary carrying both a threshold
and a criticality and the raw tag value lowercases to `"true"`, the override
pass resolves to that tier's threshold and criticality. -/
theorem resolveThresholds_true_match (thresholds : List COA.Tier)
    (priority_token tag_value : String) (pre post : List COA.Tier) (th cr : Val)
    (hsplit : thresholds =
      pre ++ COA.Tier.dict (some (Val.str priority_token)) (some th) (some cr) :: post)
    (hpre : ∀ t ∈ pre, tierMatches priority_token t = false)
    (hpost : ∀ t ∈ post, tierMatches priority_token t = false)
    (htrue : pyLower tag_value = "true") :
    resolveThresholds thresholds priority_token tag_value = (th, cr) := by
  unfold resolveThresholds
  rw [hsplit, List.foldl_append,
    foldl_applyThreshold_no_match priority_token _ pre hpre, List.foldl_cons]
  have hstep :
      applyThreshold priority_token (Val.str tag_value, none)
        (COA.Tier.dict (some (Val.str priority_token)) (some th) (some cr)) =
      (th, some cr) := by
    simp [applyThreshold, Val.pyStr, htrue]
  rw [hstep, foldl_applyThreshold_no_match priority_token _ post hpost]

/-- When the unique matching tier is a dictionary carrying a criticality and
the raw tag value does not lowercase to `"true"`, the override pass keeps
the raw value as the threshold but still installs the tier's criticality. -/
theorem resolveThresholds_nontrue_match (thresholds : List COA.Tier)
    (priority_token tag_value : String) (pre post : List COA.Tier) (th : Option Val) (cr : Val)
    (hsplit : thresholds =
      pre ++ COA.Tier.dict (some (Val.str priority_token)) th (some cr) :: post)
    (hpre : ∀ t ∈ pre, tierMatches priority_token t = false)
    (hpost : ∀ t ∈ post, tierMatches priority_token t = false)
    (hnottrue : pyLower tag_value ≠ "true") :
    resolveThresholds thresholds priority_token tag_value = (Val.str tag_value, cr) := by
  unfold resolveThresholds
  rw [hsplit, List.foldl_append,
    foldl_applyThreshold_no_match priority_token _ pre hpre, List.foldl_cons]
  have hstep :
      applyThreshold priority_token (Val.str tag_value, none)
        (COA.Tier.dict (some (Val.str priority_token)) th (some cr)) =
      (Val.str tag_value, some cr) := by
    simp [applyThreshold, Val.pyStr, hnottrue]
  rw [hstep, foldl_applyThreshold_no_match priority_token _ post hpost]

/-- Every dimension kept by the binding loop carries a value. -/
theorem bindDimensions_value_isSome (identifier resource_id : String)
    (metadata : List (String × Val)) (entries : List COA.DimEntry) :
    ∀ d ∈ bindDimensions identifier resource_id metadata entries, d.value.isSome := by
  induction entries with
  | nil => intro d hd; simp [bindDimensions] at hd
  | cons e rest ih =>
    intro d hd
    cases e with
    | nondict => exact ih d hd
    | dict d0 =>
      simp only [bindDimensions] at hd
      by_cases hb : (bindDim identifier resource_id metadata d0).value.isSome
      · rw [if_pos hb] at hd
        rcases List.mem_cons.mp hd with h | h
        · rw [h]; exact hb
        · exact ih d h
      · rw [if_neg hb] at hd
        exact ih d hd

/-- Every disk-derived dimension carries a value. -/
theorem diskDims_value_isSome (disk : List (String × String)) :
    ∀ d ∈ diskDims disk, d.value.isSome := by
  intro d hd
  simp only [diskDims, List.mem_map] at hd
  rcases hd with ⟨kv, _, rfl⟩
  rfl

/-- Every dimension of a built candidate carries a value. -/
theorem gtiDims_value_isSome (env : COA.Env) (metric identifier resource_id : String)
    (ev : COA.Event) (table_item : COA.TableItem) (disk : Option (List (String × String))) :
    ∀ d ∈ gtiDims env metric identifier resource_id ev table_item disk, d.value.isSome := by
  intro d hd
  cases disk with
  | none => exact bindDimensions_value_isSome _ _ _ _ d hd
  | some dd =>
    simp only [gtiDims] at hd
    by_cases hg : some metric = env.EC2LINUXDISK_TAG ∨ some metric = env.EC2WINDOWSDISK_TAG
    · rw [if_pos hg] at hd
      rcases List.mem_append.mp hd with h | h
      · exact bindDimensions_value_isSome _ _ _ _ d h
      · exact diskDims_value_isSome dd d h
    · rw [if_neg hg] at hd
      exact bindDimensions_value_isSome _ _ _ _ d hd

/-- When every dimension carries a value and the event context is present,
the built alarm name is exactly the specification's template, with a
qualifier exactly when the first `path`/`LogicalDisk` dimension's value is
truthy. -/
theorem build_alarm_name_eq_spec (ev : COA.Event) (metric : String) (crit : Val)
    (dims : List COA.Dim) (acctAlias acct srv rtype rid : String)
    (h1 : ev.account_alias = some acctAlias) (h2 : ev.account = some acct)
    (h3 : ev.service = some srv) (h4 : ev.resource_type = some rtype)
    (h5 : ev.resource_id = some rid)
    (hv : ∀ d ∈ dims, d.value.isSome) :
    build_alarm_name ev metric crit dims =
      Except.ok (specAlarmName acctAlias acct srv rtype rid metric (qualifierOf dims)
        crit.pyStr) := by
  cases hfind : dims.find? isTargetDim with
  | none =>
    simp [build_alarm_name, qualifierOf, specAlarmName, hfind, h1, h2, h3, h4, h5]
  | some d =>
    have hd : d ∈ dims := List.mem_of_find?_eq_some hfind
    have hval := hv d hd
    cases hvv : d.value with
    | none => rw [hvv] at hval; simp at hval
    | some v =>
      cases ht : v.pyTruthy with
      | true =>
        simp [build_alarm_name, qualifierOf, specAlarmName, hfind, hvv, ht,
          h1, h2, h3, h4, h5]
      | false =>
        simp [build_alarm_name, qualifierOf, specAlarmName, hfind, hvv, ht,
          h1, h2, h3, h4, h5]

/-- Full evaluation of `get_table_item` on a template hit when the event
context is present: the candidate it returns, field by field. -/
theorem get_table_item_eq (env : COA.Env) (catalog : COA.Catalog)
    (service metric priority_token tag_value identifier resource_id : String)
    (ev : COA.Event) (disk : Option (List (String × String))) (ti : COA.TableItem)
    (acctAlias acct srv rtype rid reg : String)
    (hcat : catalog service metric = some ti)
    (h1 : ev.account_alias = some acctAlias) (h2 : ev.account = some acct)
    (h3 : ev.service = some srv) (h4 : ev.resource_type = some rtype)
    (h5 : ev.resource_id = some rid) (hreg : ev.region = some reg) :
    get_table_item env catalog service metric priority_token tag_value identifier
      resource_id ev disk =
      Except.ok (some
        { priority := priority_token
          metric := metric
          service := service
          threshold := (resolveThresholds ti.thresholds priority_token tag_value).1
          criticality := (resolveThresholds ti.thresholds priority_token tag_value).2
          actions_enabled := ti.actions_enabled
          comparison_operator := ti.comparison_operator
          datapoints_to_alarm := ti.datapoints_to_alarm
          dimensions := gtiDims env metric identifier resource_id ev ti disk
          evaluation_periods := ti.evaluation_periods
          namespace_ := ti.namespace_
          period := ti.period
          statistic := ti.statistic
          treat_missing_data := ti.treat_missing_data
          alarm_description := ti.alarm_description
          alarm_name := specAlarmName acctAlias acct srv rtype rid metric
            (qualifierOf (gtiDims env metric identifier resource_id ev ti disk))
            (resolveThresholds ti.thresholds priority_token tag_value).2.pyStr
          action_topic_arn := ["arn:aws:sns:" ++ reg ++ ":" ++ acct ++
            ":Rebura-CentralisedObservabilityAutomationTopic" ++ priority_token ++
            "-" ++ reg] }) := by
  have hbn := build_alarm_name_eq_spec ev metric
    (resolveThresholds ti.thresholds priority_token tag_value).2
    (gtiDims env metric identifier resource_id ev ti disk) acctAlias acct srv rtype rid
    h1 h2 h3 h4 h5
    (gtiDims_value_isSome env metric identifier resource_id ev ti disk)
  have harn : build_action_topic_arn ev priority_token =
      Except.ok ["arn:aws:sns:" ++ reg ++ ":" ++ acct ++
        ":Rebura-CentralisedObservabilityAutomationTopic" ++ priority_token ++
        "-" ++ reg] := by
    simp [build_action_topic_arn, hreg, h2]
  simp [get_table_item, hcat, hbn, harn]

/-- An environment with neither disk-metric tag configured. -/
def envPlain : COA.Env := { EC2LINUXDISK_TAG := none, EC2WINDOWSDISK_TAG := none }

/-- A fully populated event for an EC2 instance, with no metadata overrides
and no tags (fixtures override `tags` as needed). -/
def evBase : COA.Event :=
  { account := some "123456789012"
    region := some "eu-west-1"
    account_alias := some "acme"
    service := some "ec2"
    resource_type := some "instance"
    resource_id := some "i-123"
    identifier := some "InstanceId"
    metadata := []
    tags := [] }

/-- The seeded EC2 CPU template: three dictionary tiers and one identifier
dimension placeholder. -/
def tiCPU : COA.TableItem :=
  { namespace_ := "AWS/EC2"
    extended_statistic := none
    alarm_description := "Triggered when CPU exceeds thresholds or becomes unreachable"
    comparison_operator := "GreaterThanThreshold"
    actions_enabled := true
    thresholds :=
      [COA.Tier.dict (some (Val.str "P1")) (some (Val.num 95)) (some (Val.str "Critical")),
       COA.Tier.dict (some (Val.str "P2")) (some (Val.num 90)) (some (Val.str "High")),
       COA.Tier.dict (some (Val.str "P3")) (some (Val.num 80)) (some (Val.str "Low"))]
    dimensions :=
      [COA.DimEntry.dict { name := some (Val.str "InstanceId"),
                           value := some (Val.str "InstanceId") }]
    datapoints_to_alarm := 15
    evaluation_periods := 15
    period := 60
    treat_missing_data := "breaching"
    statistic := some "Average" }

/-- A catalog holding only the seeded EC2 CPU template. -/
def catCPU : COA.Catalog :=
  fun s m => if s = "EC2" ∧ m = "CPUUtilization" then some tiCPU else none

/-- C1: a threshold tier whose priority equals the signal's priority token,
combined with a raw tag value whose lowercase form is `"true"` (so equally
for `"True"` and `"TRUE"`), resolves the candidate's threshold to that
tier's stored threshold value and its criticality to that tier's
criticality. -/
theorem C1_tier_true_uses_tier_values (env : COA.Env) (catalog : COA.Catalog)
    (service metric priority_token tag_value identifier resource_id : String)
    (ev : COA.Event) (disk : Option (List (String × String))) (ti : COA.TableItem)
    (pre post : List COA.Tier) (th cr : Val)
    (acctAlias acct srv rtype rid reg : String)
    (hcat : catalog service metric = some ti)
    (hsplit : ti.thresholds =
      pre ++ COA.Tier.dict (some (Val.str priority_token)) (some th) (some cr) :: post)
    (hpre : ∀ t ∈ pre, tierMatches priority_token t = false)
    (hpost : ∀ t ∈ post, tierMatches priority_token t = false)
    (htrue : pyLower tag_value = "true")
    (h1 : ev.account_alias = some acctAlias) (h2 : ev.account = some acct)
    (h3 : ev.service = some srv) (h4 : ev.resource_type = some rtype)
    (h5 : ev.resource_id = some rid) (hreg : ev.region = some reg) :
    ∃ it : COA.Item,
      get_table_item env catalog service metric priority_token tag_value identifier
        resource_id ev disk = Except.ok (some it) ∧
      it.threshold = th ∧ it.criticality = cr := by
  have hres := resolveThresholds_true_match ti.thresholds priority_token tag_value
    pre post th cr hsplit hpre hpost htrue
  refine ⟨_, get_table_item_eq env catalog service metric priority_token tag_value
    identifier resource_id ev disk ti acctAlias acct srv rtype rid reg
    hcat h1 h2 h3 h4 h5 hreg, ?_, ?_⟩
  · simp [hres]
  · simp [hres]

/-- Witness for C1: the seeded CPU template with tag value `"TRUE"` on a P1
signal resolves to threshold 95 and criticality `Critical`. -/
theorem C1_witness :
    pyLower "TRUE" = "true" ∧
    (∃ it : COA.Item,
      get_table_item envPlain catCPU "EC2" "CPUUtilization" "P1" "TRUE" "InstanceId"
        "i-123" evBase none = Except.ok (some it) ∧
      it.threshold = Val.num 95 ∧ it.criticality = Val.str "Critical") :=
  ⟨by decide,
   C1_tier_true_uses_tier_values envPlain catCPU "EC2" "CPUUtilization" "P1" "TRUE"
     "InstanceId" "i-123" evBase none tiCPU []
     [COA.Tier.dict (some (Val.str "P2")) (some (Val.num 90)) (some (Val.str "High")),
      COA.Tier.dict (some (Val.str "P3")) (some (Val.num 80)) (some (Val.str "Low"))]
     (Val.num 95) (Val.str "Critical") "acme" "123456789012" "ec2" "instance" "i-123"
     "eu-west-1" rfl rfl (by simp) (by decide) (by decide) rfl rfl rfl rfl rfl rfl⟩

/-- The candidate the code actually builds for C2's scenario: raw value
`"80"` on a P1 signal against the seeded CPU template. -/
def itemC2 : COA.Item :=
  { priority := "P1"
    metric := "CPUUtilization"
    service := "EC2"
    threshold := Val.str "80"
    criticality := Val.str "Critical"
    actions_enabled := true
    comparison_operator := "GreaterThanThreshold"
    datapoints_to_alarm := 15
    dimensions := [{ name := some (Val.str "InstanceId"), value := some (Val.str "i-123") }]
    evaluation_periods := 15
    namespace_ := "AWS/EC2"
    period := 60
    statistic := some "Average"
    treat_missing_data := "breaching"
    alarm_description := "Triggered when CPU exceeds thresholds or becomes unreachable"
    alarm_name := "acme-123456789012-ec2-instance-i-123-CPUUtilization-Severity: Critical"
    action_topic_arn :=
      ["arn:aws:sns:eu-west-1:123456789012:Rebura-CentralisedObservabilityAutomationTopicP1-eu-west-1"] }

/-- Counterexample to C2: with raw value `"80"` on a P1 signal and a tier
`P1 → 95, Critical`, the resolved threshold is indeed the raw `"80"`, but
the criticality is the tier's `Critical`, not the priority token `P1` the
claim requires. -/
theorem C2_counterexample :
    get_table_item envPlain catCPU "EC2" "CPUUtilization" "P1" "80" "InstanceId" "i-123"
      evBase none = Except.ok (some itemC2) ∧
    itemC2.threshold = Val.str "80" ∧
    itemC2.criticality ≠ Val.str "P1" :=
  ⟨rfl, rfl, by decide⟩

/-- C2 as amended: for a matching dictionary tier and a non-`"true"` raw
value, the resolved threshold is the raw tag value verbatim, and the
criticality is the tier's criticality whenever the tier carries one (the
priority token is only the default when no matching tier sets it). -/
theorem C2_amended_raw_value_kept (env : COA.Env) (catalog : COA.Catalog)
    (service metric priority_token tag_value identifier resource_id : String)
    (ev : COA.Event) (disk : Option (List (String × String))) (ti : COA.TableItem)
    (pre post : List COA.Tier) (th : Option Val) (cr : Val)
    (acctAlias acct srv rtype rid reg : String)
    (hcat : catalog service metric = some ti)
    (hsplit : ti.thresholds =
      pre ++ COA.Tier.dict (some (Val.str priority_token)) th (some cr) :: post)
    (hpre : ∀ t ∈ pre, tierMatches priority_token t = false)
    (hpost : ∀ t ∈ post, tierMatches priority_token t = false)
    (hnottrue : pyLower tag_value ≠ "true")
    (h1 : ev.account_alias = some acctAlias) (h2 : ev.account = some acct)
    (h3 : ev.service = some srv) (h4 : ev.resource_type = some rtype)
    (h5 : ev.resource_id = some rid) (hreg : ev.region = some reg) :
    ∃ it : COA.Item,
      get_table_item env catalog service metric priority_token tag_value identifier
        resource_id ev disk = Except.ok (some it) ∧
      it.threshold = Val.str tag_value ∧ it.criticality = cr := by
  have hres := resolveThresholds_nontrue_match ti.thresholds priority_token tag_value
    pre post th cr hsplit hpre hpost hnottrue
  refine ⟨_, get_table_item_eq env catalog service metric priority_token tag_value
    identifier resource_id ev disk ti acctAlias acct srv rtype rid reg
    hcat h1 h2 h3 h4 h5 hreg, ?_, ?_⟩
  · simp [hres]
  · simp [hres]

/-- Witness for the amended C2: raw value `"80"` on a P1 signal yields
threshold `"80"` and the tier's criticality `Critical`. -/
theorem C2_amended_witness :
    pyLower "80" ≠ "true" ∧
    (∃ it : COA.Item,
      get_table_item envPlain catCPU "EC2" "CPUUtilization" "P1" "80" "InstanceId"
        "i-123" evBase none = Except.ok (some it) ∧
      it.threshold = Val.str "80" ∧ it.criticality = Val.str "Critical") :=
  ⟨by decide,
   C2_amended_raw_value_kept envPlain catCPU "EC2" "CPUUtilization" "P1" "80"
     "InstanceId" "i-123" evBase none tiCPU []
     [COA.Tier.dict (some (Val.str "P2")) (some (Val.num 90)) (some (Val.str "High")),
      COA.Tier.dict (some (Val.str "P3")) (some (Val.num 80)) (some (Val.str "Low"))]
     (some (Val.num 95)) (Val.str "Critical") "acme" "123456789012" "ec2" "instance"
     "i-123" "eu-west-1" rfl rfl (by simp) (by decide) (by decide) rfl rfl rfl rfl rfl rfl⟩

/-- C10: an event whose identifier or resource id is absent makes
`get_alarms` return the empty list without raising, and without consulting
the template catalog at all. -/
theorem C10_missing_identifier_yields_empty (env : COA.Env) (catalog catalog' : COA.Catalog)
    (ev : COA.Event) (disks : List (List (String × String)))
    (h : ev.identifier = none ∨ ev.resource_id = none) :
    get_alarms env catalog ev disks = Except.ok [] ∧
    get_alarms env catalog ev disks = get_alarms env catalog' ev disks := by
  have hself : ∀ c : COA.Catalog, get_alarms env c ev disks = Except.ok [] := by
    intro c
    rcases h with h | h
    · simp [get_alarms, h]
    · cases hid : ev.identifier with
      | none => simp [get_alarms, hid]
      | some i => simp [get_alarms, hid, h]
  exact ⟨hself catalog, by rw [hself catalog, hself catalog']⟩

/-- Witness for C10: the base event with its identifier removed produces no
alarms even with the CPU template in the catalog and a disk present. -/
theorem C10_witness :
    get_alarms envPlain catCPU { evBase with identifier := none } [[("path", "/data")]] =
      Except.ok [] ∧
    get_alarms envPlain catCPU { evBase with identifier := none } [[("path", "/data")]] =
      get_alarms envPlain (fun _ _ => none) { evBase with identifier := none }
        [[("path", "/data")]] :=
  C10_missing_identifier_yields_empty envPlain catCPU (fun _ _ => none)
    { evBase with identifier := none } [[("path", "/data")]] (Or.inl rfl)

/-- An event carrying two distinct tag keys that parse to the same
`(service, metric, priority)` signal. -/
def evC3 : COA.Event :=
  { evBase with tags := [("Org1:EC2:CPUUtilization:P1", "true"),
                         ("Org2:EC2:CPUUtilization:P1", "true")] }

/-- The candidate both of `evC3`'s signals resolve to — identical alarm
name included. -/
def itemC3 : COA.Item :=
  { priority := "P1"
    metric := "CPUUtilization"
    service := "EC2"
    threshold := Val.num 95
    criticality := Val.str "Critical"
    actions_enabled := true
    comparison_operator := "GreaterThanThreshold"
    datapoints_to_alarm := 15
    dimensions := [{ name := some (Val.str "InstanceId"), value := some (Val.str "i-123") }]
    evaluation_periods := 15
    namespace_ := "AWS/EC2"
    period := 60
    statistic := some "Average"
    treat_missing_data := "breaching"
    alarm_description := "Triggered when CPU exceeds thresholds or becomes unreachable"
    alarm_name := "acme-123456789012-ec2-instance-i-123-CPUUtilization-Severity: Critical"
    action_topic_arn :=
      ["arn:aws:sns:eu-west-1:123456789012:Rebura-CentralisedObservabilityAutomationTopicP1-eu-west-1"] }

/-- C3 fails on the code: two tag signals that resolve to the same final
alarm name are both emitted — the pipeline output contains the identical
candidate twice, with no name-keyed deduplication anywhere (`get_alarms`
declares a `seen` set for "unique alarm signatures" but never reads or
writes it). -/
theorem C3_duplicate_alarm_names_both_emitted :
    lambda_handler_alarm_config envPlain catCPU evC3 [] = Except.ok [itemC3, itemC3] ∧
    itemC3.alarm_name =
      "acme-123456789012-ec2-instance-i-123-CPUUtilization-Severity: Critical" :=
  ⟨rfl, rfl⟩

/-- A template whose two dimensions are both unresolvable placeholders
(`Name == Value`), back to back. -/
def tiAB : COA.TableItem :=
  { namespace_ := "CWAgent"
    extended_statistic := none
    alarm_description := "mem"
    comparison_operator := "GreaterThanThreshold"
    actions_enabled := true
    thresholds := []
    dimensions :=
      [COA.DimEntry.dict { name := some (Val.str "A"), value := some (Val.str "A") },
       COA.DimEntry.dict { name := some (Val.str "B"), value := some (Val.str "B") }]
    datapoints_to_alarm := 15
    evaluation_periods := 15
    period := 60
    treat_missing_data := "breaching"
    statistic := some "Average" }

/-- A catalog holding only `tiAB` under `(EC2, MemUtil)`. -/
def catAB : COA.Catalog :=
  fun s m => if s = "EC2" ∧ m = "MemUtil" then some tiAB else none

/-- An event with one P1 tag for the `(EC2, MemUtil)` template. -/
def evC4 : COA.Event :=
  { evBase with tags := [("Org:EC2:MemUtil:P1", "80")] }

/-- The second of the two offending dimensions. -/
def dimBB : COA.Dim := { name := some (Val.str "B"), value := some (Val.str "B") }

/-- The candidate the pipeline emits for `evC4`: the handler's
remove-while-iterating filter drops the first `Name == Value` dimension but
skips over — and therefore keeps — the one directly after it. -/
def itemC4 : COA.Item :=
  { priority := "P1"
    metric := "MemUtil"
    service := "EC2"
    threshold := Val.str "80"
    criticality := Val.str "P1"
    actions_enabled := true
    comparison_operator := "GreaterThanThreshold"
    datapoints_to_alarm := 15
    dimensions := [dimBB]
    evaluation_periods := 15
    namespace_ := "CWAgent"
    period := 60
    statistic := some "Average"
    treat_missing_data := "breaching"
    alarm_description := "mem"
    alarm_name := "acme-123456789012-ec2-instance-i-123-MemUtil-Severity: P1"
    action_topic_arn :=
      ["arn:aws:sns:eu-west-1:123456789012:Rebura-CentralisedObservabilityAutomationTopicP1-eu-west-1"] }

/-- C4 fails on the code: with two consecutive `Name == Value` dimensions
the emitted candidate still retains one of them, because
`lambda_handler` removes list elements while iterating over the same list,
which skips the element following each removal. -/
theorem C4_name_equals_value_dim_retained :
    lambda_handler_alarm_config envPlain catAB evC4 [] = Except.ok [itemC4] ∧
    itemC4.dimensions = [dimBB] ∧
    dimBB.name = dimBB.value :=
  ⟨rfl, rfl, rfl⟩

/-- A template whose only dimension is a `path` placeholder with no stored
value. -/
def tiPath : COA.TableItem :=
  { namespace_ := "CWAgent"
    extended_statistic := none
    alarm_description := "p"
    comparison_operator := "GreaterThanThreshold"
    actions_enabled := true
    thresholds := []
    dimensions := [COA.DimEntry.dict { name := some (Val.str "path"), value := none }]
    datapoints_to_alarm := 15
    evaluation_periods := 15
    period := 60
    treat_missing_data := "breaching"
    statistic := some "Average" }

/-- A catalog holding only `tiPath` under `(EC2, PathMetric)`. -/
def catPath : COA.Catalog :=
  fun s m => if s = "EC2" ∧ m = "PathMetric" then some tiPath else none

/-- An event whose metadata binds the `path` dimension to the empty
string. -/
def evC5 : COA.Event := { evBase with metadata := [("path", Val.str "")] }

/-- The candidate built for `evC5`: it retains a dimension named `path`,
yet its alarm name carries no quoted disk-qualifier segment. -/
def itemC5 : COA.Item :=
  { priority := "P1"
    metric := "PathMetric"
    service := "EC2"
    threshold := Val.str "true"
    criticality := Val.str "P1"
    actions_enabled := true
    comparison_operator := "GreaterThanThreshold"
    datapoints_to_alarm := 15
    dimensions := [{ name := some (Val.str "path"), value := some (Val.str "") }]
    evaluation_periods := 15
    namespace_ := "CWAgent"
    period := 60
    statistic := some "Average"
    treat_missing_data := "breaching"
    alarm_description := "p"
    alarm_name := "acme-123456789012-ec2-instance-i-123-PathMetric-Severity: P1"
    action_topic_arn :=
      ["arn:aws:sns:eu-west-1:123456789012:Rebura-CentralisedObservabilityAutomationTopicP1-eu-west-1"] }

/-- Counterexample to C5: a candidate with a bound dimension named `path`
(value: the empty string) whose alarm name omits the qualifier segment the
claim requires whenever such a dimension exists. -/
theorem C5_counterexample :
    get_table_item envPlain catPath "EC2" "PathMetric" "P1" "true" "InstanceId" "i-123"
      evC5 none = Except.ok (some itemC5) ∧
    itemC5.dimensions = [{ name := some (Val.str "path"), value := some (Val.str "") }] ∧
    itemC5.alarm_name =
      "acme-123456789012-ec2-instance-i-123-PathMetric-Severity: P1" ∧
    itemC5.alarm_name ≠
      specAlarmName "acme" "123456789012" "ec2" "instance" "i-123" "PathMetric"
        (some "") "P1" :=
  ⟨rfl, rfl, rfl, by decide⟩

/-- C5 as amended: every resolved candidate's alarm name is exactly the
template `{alias}-{account}-{service}-{type}-{id}-{metric}[-'{qual}']-`
`Severity: {criticality}`, where the quoted qualifier segment appears
exactly when the first dimension named `path` or `LogicalDisk` carries a
truthy (e.g. nonempty-string) value — that value being the qualifier — and
is omitted when no such dimension exists or its value is falsy. -/
theorem C5_amended_alarm_name_format (env : COA.Env) (catalog : COA.Catalog)
    (service metric priority_token tag_value identifier resource_id : String)
    (ev : COA.Event) (disk : Option (List (String × String))) (ti : COA.TableItem)
    (acctAlias acct srv rtype rid reg : String)
    (hcat : catalog service metric = some ti)
    (h1 : ev.account_alias = some acctAlias) (h2 : ev.account = some acct)
    (h3 : ev.service = some srv) (h4 : ev.resource_type = some rtype)
    (h5 : ev.resource_id = some rid) (hreg : ev.region = some reg) :
    ∃ it : COA.Item,
      get_table_item env catalog service metric priority_token tag_value identifier
        resource_id ev disk = Except.ok (some it) ∧
      it.alarm_name = specAlarmName acctAlias acct srv rtype rid metric
        (qualifierOf it.dimensions)
        (resolveThresholds ti.thresholds priority_token tag_value).2.pyStr :=
  ⟨_, get_table_item_eq env catalog service metric priority_token tag_value identifier
    resource_id ev disk ti acctAlias acct srv rtype rid reg hcat h1 h2 h3 h4 h5 hreg,
   rfl⟩

/-- An environment configured with the two disk-metric tags. -/
def envDisk : COA.Env :=
  { EC2LINUXDISK_TAG := some "disk_used_percent"
    EC2WINDOWSDISK_TAG := some "LogicalDisk % Free Space" }

/-- The seeded Linux disk template. -/
def tiDisk : COA.TableItem :=
  { namespace_ := "CWAgent"
    extended_statistic := none
    alarm_description := "disk"
    comparison_operator := "GreaterThanThreshold"
    actions_enabled := true
    thresholds :=
      [COA.Tier.dict (some (Val.str "P1")) (some (Val.num 90)) (some (Val.str "Critical"))]
    dimensions :=
      [COA.DimEntry.dict { name := some (Val.str "InstanceId"),
                           value := some (Val.str "InstanceId") }]
    datapoints_to_alarm := 15
    evaluation_periods := 15
    period := 60
    treat_missing_data := "breaching"
    statistic := some "Average" }

/-- A catalog holding only `tiDisk` under `(EC2, disk_used_percent)`. -/
def catDisk : COA.Catalog :=
  fun s m => if s = "EC2" ∧ m = "disk_used_percent" then some tiDisk else none

/-- Witness for the amended C5: a Linux-disk candidate whose name carries
the qualifier drawn from its own dimension list. -/
theorem C5_amended_witness :
    ∃ it : COA.Item,
      get_table_item envDisk catDisk "EC2" "disk_used_percent" "P1" "true" "InstanceId"
        "i-123" evBase
        (some [("device", "xvda1"), ("fstype", "ext4"), ("path", "/data")]) =
        Except.ok (some it) ∧
      it.alarm_name = specAlarmName "acme" "123456789012" "ec2" "instance" "i-123"
        "disk_used_percent" (qualifierOf it.dimensions)
        (resolveThresholds tiDisk.thresholds "P1" "true").2.pyStr :=
  C5_amended_alarm_name_format envDisk catDisk "EC2" "disk_used_percent" "P1" "true"
    "InstanceId" "i-123" evBase
    (some [("device", "xvda1"), ("fstype", "ext4"), ("path", "/data")]) tiDisk
    "acme" "123456789012" "ec2" "instance" "i-123" "eu-west-1"
    rfl rfl rfl rfl rfl rfl rfl

/-- Counterexample to C6: with the account and resource id absent from the
event, the name builder succeeds anyway (substituting empty strings), and
with only the resource id absent the route builder succeeds too — neither
fails as the claim requires for missing context. -/
theorem C6_counterexample :
    build_alarm_name { evBase with account := none, resource_id := none }
      "CPUUtilization" (Val.str "Critical") [] =
      Except.ok "acme--ec2-instance--CPUUtilization-Severity: Critical" ∧
    build_action_topic_arn { evBase with resource_id := none } "P1" =
      Except.ok
        ["arn:aws:sns:eu-west-1:123456789012:Rebura-CentralisedObservabilityAutomationTopicP1-eu-west-1"] :=
  ⟨rfl, rfl⟩

/-- C6 as amended: the route builder alone fails on missing context, and
only for a missing region or account (which propagates); the name builder
never fails on missing event fields — it substitutes the empty string for
each absent one — and the resource id is required by neither builder. -/
theorem C6_amended_error_behaviour :
    (∀ (ev : COA.Event) (p : String), ev.region = none ∨ ev.account = none →
      build_action_topic_arn ev p = Except.error ()) ∧
    (∀ (ev : COA.Event) (p r a : String), ev.region = some r → ev.account = some a →
      build_action_topic_arn ev p = Except.ok ["arn:aws:sns:" ++ r ++ ":" ++ a ++
        ":Rebura-CentralisedObservabilityAutomationTopic" ++ p ++ "-" ++ r]) ∧
    (∀ (ev : COA.Event) (metric : String) (crit : Val) (dims : List COA.Dim),
      (∀ d ∈ dims, d.value.isSome) →
      ∃ s, build_alarm_name ev metric crit dims = Except.ok s) := by
  refine ⟨?_, ?_, ?_⟩
  · intro ev p h
    rcases h with h | h
    · simp [build_action_topic_arn, h]
    · cases hr : ev.region with
      | none => simp [build_action_topic_arn, hr]
      | some r => simp [build_action_topic_arn, hr, h]
  · intro ev p r a hr ha
    simp [build_action_topic_arn, hr, ha]
  · intro ev metric crit dims hv
    simp only [build_alarm_name]
    cases hfind : dims.find? isTargetDim with
    | none => exact ⟨_, rfl⟩
    | some d =>
      have hval := hv d (List.mem_of_find?_eq_some hfind)
      obtain ⟨v, hvv⟩ := Option.isSome_iff_exists.mp hval
      simp only [hvv]
      by_cases ht : v.pyTruthy = true
      · rw [if_pos ht]; exact ⟨_, rfl⟩
      · rw [if_neg ht]; exact ⟨_, rfl⟩

/-- Witness for the amended C6: a missing region makes the route builder
raise; a full event gives the expected ARN; the name builder succeeds with
the account missing. -/
theorem C6_amended_witness :
    build_action_topic_arn { evBase with region := none } "P1" = Except.error () ∧
    build_action_topic_arn evBase "P2" = Except.ok
      ["arn:aws:sns:" ++ "eu-west-1" ++ ":" ++ "123456789012" ++
        ":Rebura-CentralisedObservabilityAutomationTopic" ++ "P2" ++ "-" ++ "eu-west-1"] ∧
    ∃ s, build_alarm_name { evBase with account := none } "MetricX" (Val.str "C") [] =
      Except.ok s :=
  ⟨C6_amended_error_behaviour.1 { evBase with region := none } "P1" (Or.inl rfl),
   C6_amended_error_behaviour.2.1 evBase "P2" "eu-west-1" "123456789012" rfl rfl,
   C6_amended_error_behaviour.2.2 { evBase with account := none } "MetricX"
     (Val.str "C") [] (by simp)⟩

/-- An SSM invocation trace that never leaves `Pending` but already shows
partial standard output at every read. -/
def pendingWithOutput : Nat → Except Unit SsmResp :=
  fun _ => Except.ok { status := "Pending",
                       standardOutputContent := "/dev/xvda1 ext4 /data\n" }

/-- Counterexample to C7: on a command that stays `Pending` at every poll
instant — the 180-second deadline included — disk discovery does not yield
the empty disk list the claim requires; it parses the pending command's
partial output into a disk. -/
theorem C7_counterexample :
    discover_disks "Linux" (Except.ok ()) pendingWithOutput =
      [[("device", "xvda1"), ("fstype", "ext4"), ("path", "/data")]] ∧
    [[("device", "xvda1"), ("fstype", "ext4"), ("path", "/data")]] ≠
      ([] : List (List (String × String))) ∧
    pendingWithOutput 180 =
      Except.ok { status := "Pending",
                  standardOutputContent := "/dev/xvda1 ext4 /data\n" } :=
  ⟨rfl, by decide, rfl⟩

/-- A catalog holding the CPU template and the Linux disk template. -/
def catC7 : COA.Catalog :=
  fun s m =>
    if s = "EC2" ∧ m = "CPUUtilization" then some tiCPU
    else if s = "EC2" ∧ m = "disk_used_percent" then some tiDisk
    else none

/-- An event with one CPU tag signal and one Linux-disk tag signal. -/
def evC7 : COA.Event :=
  { evBase with tags := [("Org:EC2:CPUUtilization:P1", "true"),
                         ("Org:EC2:disk_used_percent:P1", "true")] }

/-- C7 as amended: disk discovery does not poll — its result depends only
on the single invocation read performed after the fixed five-second sleep
(conjunct 1) and is independent of the command's status field (conjunct 2);
a submission or read error yields the empty disk list (conjuncts 3 and 4);
and with a command still pending and no output after that single read, the
instance's non-disk alarms are still produced (conjunct 5). -/
theorem C7_amended_single_read_no_poll :
    (∀ (os : String) (send : Except Unit Unit) (f g : Nat → Except Unit SsmResp),
      f 5 = g 5 → discover_disks os send f = discover_disks os send g) ∧
    (∀ (os : String) (send : Except Unit Unit) (f : Nat → Except Unit SsmResp)
      (st : String),
      discover_disks os send
        (fun t => Except.map
          (fun r => { status := st, standardOutputContent := r.standardOutputContent })
          (f t)) =
      discover_disks os send f) ∧
    (∀ (os : String) (f : Nat → Except Unit SsmResp),
      discover_disks os (Except.error ()) f = []) ∧
    (∀ (os : String) (send : Except Unit Unit),
      discover_disks os send (fun _ => Except.error ()) = []) ∧
    lambda_handler_alarm_config envDisk catC7 evC7
      (discover_disks "Linux" (Except.ok ())
        (fun _ => Except.ok { status := "Pending", standardOutputContent := "" })) =
      Except.ok [itemC3] := by
  refine ⟨?_, ?_, ?_, ?_, rfl⟩
  · intro os send f g h
    cases send with
    | error e => rfl
    | ok u => simp only [discover_disks]; rw [h]
  · intro os send f st
    cases send with
    | error e => rfl
    | ok u =>
      simp only [discover_disks]
      cases f 5 with
      | error e => rfl
      | ok r => rfl
  · intro os f; rfl
  · intro os send; cases send with
    | error e => rfl
    | ok u => rfl

/-- A trace that agrees with `pendingWithOutput` at the five-second mark
and errors everywhere else. -/
def traceOnlyAt5 : Nat → Except Unit SsmResp :=
  fun t => if t = 5 then pendingWithOutput t else Except.error ()

/-- Witness for the amended C7: two traces that agree only at the
five-second read give identical discovery results. -/
theorem C7_amended_witness :
    discover_disks "Linux" (Except.ok ()) pendingWithOutput =
      discover_disks "Linux" (Except.ok ()) traceOnlyAt5 :=
  C7_amended_single_read_no_poll.1 "Linux" (Except.ok ()) pendingWithOutput
    traceOnlyAt5 rfl

/-- Counterexample to C8: a dimension whose name (`Foo`) matches neither
the identifier dimension name (`InstanceId`) nor any metadata key (the
metadata map is empty) is not dropped — it is retained verbatim because it
already carries a `Value` entry. -/
theorem C8_counterexample :
    bindDimensions "InstanceId" "i-1" []
      [COA.DimEntry.dict { name := some (Val.str "Foo"), value := some (Val.str "bar") }] =
      [{ name := some (Val.str "Foo"), value := some (Val.str "bar") }] ∧
    (some (Val.str "Foo") : Option Val) ≠ some (Val.str "InstanceId") ∧
    ([] : List (String × Val)).lookup "Foo" = none :=
  ⟨rfl, by decide, rfl⟩

/-- C8 as amended: binding proceeds identifier-first (a dimension named
like the identifier is bound to the resource id even when the metadata map
also has that key), then metadata overrides; a dimension matching neither
is left untouched; and after binding a dimension is dropped exactly when it
carries no `Value` entry — dimensions with a pre-existing value that match
neither source are retained verbatim. -/
theorem C8_amended_binding_order_and_drop :
    (∀ (identifier resource_id : String) (md : List (String × Val)) (d : COA.Dim),
      d.name = some (Val.str identifier) →
      bindDim identifier resource_id md d =
        { d with value := some (Val.str resource_id) }) ∧
    (∀ (identifier resource_id : String) (md : List (String × Val)) (d : COA.Dim)
      (s : String) (v : Val),
      d.name = some (Val.str s) → s ≠ identifier → md.lookup s = some v →
      bindDim identifier resource_id md d = { d with value := some v }) ∧
    (∀ (identifier resource_id : String) (md : List (String × Val)) (d : COA.Dim),
      d.name ≠ some (Val.str identifier) →
      (∀ s : String, d.name = some (Val.str s) → md.lookup s = none) →
      bindDim identifier resource_id md d = d) ∧
    (∀ (identifier resource_id : String) (md : List (String × Val))
      (entries : List COA.DimEntry),
      bindDimensions identifier resource_id md entries =
        entries.filterMap (fun e =>
          match e with
          | COA.DimEntry.nondict => none
          | COA.DimEntry.dict d =>
            if (bindDim identifier resource_id md d).value.isSome then
              some (bindDim identifier resource_id md d)
            else none)) := by
  refine ⟨?_, ?_, ?_, ?_⟩
  · intro identifier resource_id md d h
    simp [bindDim, h]
  · intro identifier resource_id md d s v hn hs hl
    simp [bindDim, hn, hl, hs]
  · intro identifier resource_id md d hne hmd
    unfold bindDim
    rw [if_neg hne]
    cases hn : d.name with
    | none => rfl
    | some val =>
      cases val with
      | str s => simp [hmd s hn]
      | num n => rfl
  · intro identifier resource_id md entries
    induction entries with
    | nil => rfl
    | cons e rest ih =>
      cases e with
      | nondict => simpa [bindDimensions] using ih
      | dict d =>
        by_cases hb : (bindDim identifier resource_id md d).value.isSome
        · simp [bindDimensions, List.filterMap_cons, hb, ih]
        · simp [bindDimensions, List.filterMap_cons, hb, ih]

/-- Witness for the amended C8: a dimension named like the identifier is
bound to the resource id even though the metadata map also binds that
name. -/
theorem C8_amended_witness :
    bindDim "InstanceId" "i-123" [("InstanceId", Val.str "overridden")]
      { name := some (Val.str "InstanceId"), value := some (Val.str "InstanceId") } =
      { name := some (Val.str "InstanceId"), value := some (Val.str "i-123") } :=
  C8_amended_binding_order_and_drop.1 "InstanceId" "i-123"
    [("InstanceId", Val.str "overridden")]
    { name := some (Val.str "InstanceId"), value := some (Val.str "InstanceId") } rfl

/-- The candidate the disk fan-out produces for one disk: every field is a
function of the template, the signal and the event alone, except for the
dimension list — which appends the disk's own dimensions to the bound
template dimensions — and the alarm name, whose qualifier is drawn from
that dimension list. -/
def fanoutItem (ti : COA.TableItem) (meta : COA.DiskMeta)
    (identifier resource_id : String) (ev : COA.Event)
    (acctAlias acct srv rtype reg : String) (d : List (String × String)) : COA.Item :=
  { priority := meta.priority_token
    metric := meta.metric
    service := meta.service
    threshold := (resolveThresholds ti.thresholds meta.priority_token meta.tag_value).1
    criticality := (resolveThresholds ti.thresholds meta.priority_token meta.tag_value).2
    actions_enabled := ti.actions_enabled
    comparison_operator := ti.comparison_operator
    datapoints_to_alarm := ti.datapoints_to_alarm
    dimensions :=
      bindDimensions identifier resource_id ev.metadata ti.dimensions ++ diskDims d
    evaluation_periods := ti.evaluation_periods
    namespace_ := ti.namespace_
    period := ti.period
    statistic := ti.statistic
    treat_missing_data := ti.treat_missing_data
    alarm_description := ti.alarm_description
    alarm_name := specAlarmName acctAlias acct srv rtype resource_id meta.metric
      (qualifierOf
        (bindDimensions identifier resource_id ev.metadata ti.dimensions ++ diskDims d))
      (resolveThresholds ti.thresholds meta.priority_token meta.tag_value).2.pyStr
    action_topic_arn := ["arn:aws:sns:" ++ reg ++ ":" ++ acct ++
      ":Rebura-CentralisedObservabilityAutomationTopic" ++ meta.priority_token ++
      "-" ++ reg] }

/-- C9: for an event whose tag loop yields exactly one disk-metric signal
whose template is in the catalog, and a non-empty list of N discovered
disks, the output is the non-disk alarms followed by exactly one candidate
per disk; each disk's candidate is `fanoutItem` applied to that disk, so
the N candidates agree on every field except the appended disk-derived
dimensions and the name's disk qualifier. -/
theorem C9_disk_fanout (env : COA.Env) (catalog : COA.Catalog) (ev : COA.Event)
    (disks : List (List (String × String)))
    (identifier resource_id acctAlias acct srv rtype reg : String)
    (base : List COA.Item) (meta : COA.DiskMeta) (ti : COA.TableItem)
    (hid : ev.identifier = some identifier) (hrid : ev.resource_id = some resource_id)
    (hidne : identifier ≠ "") (hridne : resource_id ≠ "")
    (htags : tagLoop env catalog identifier resource_id ev ev.tags [] [] =
      Except.ok (base, [meta]))
    (hcat : catalog meta.service meta.metric = some ti)
    (hguard : some meta.metric = env.EC2LINUXDISK_TAG ∨
      some meta.metric = env.EC2WINDOWSDISK_TAG)
    (h1 : ev.account_alias = some acctAlias) (h2 : ev.account = some acct)
    (h3 : ev.service = some srv) (h4 : ev.resource_type = some rtype)
    (hreg : ev.region = some reg)
    (hne : disks ≠ []) :
    get_alarms env catalog ev disks =
      Except.ok (base ++ disks.map
        (fanoutItem ti meta identifier resource_id ev acctAlias acct srv rtype reg)) ∧
    (disks.map
      (fanoutItem ti meta identifier resource_id ev acctAlias acct srv rtype reg)).length =
      disks.length := by
  constructor
  · have hgti : ∀ d : List (String × String),
        get_table_item env catalog meta.service meta.metric meta.priority_token
          meta.tag_value identifier resource_id ev (some d) =
        Except.ok (some
          (fanoutItem ti meta identifier resource_id ev acctAlias acct srv rtype reg d)) := by
      intro d
      have hdims : gtiDims env meta.metric identifier resource_id ev ti (some d) =
          bindDimensions identifier resource_id ev.metadata ti.dimensions ++
            diskDims d := by
        simp [gtiDims, hguard]
      rw [get_table_item_eq env catalog meta.service meta.metric meta.priority_token
        meta.tag_value identifier resource_id ev (some d) ti acctAlias acct srv rtype
        resource_id reg hcat h1 h2 h3 h4 hrid hreg]
      simp [fanoutItem, hdims]
    have hmeta : ∀ (d : List (String × String)) (acc : List COA.Item),
        diskMetaLoop env catalog identifier resource_id ev d [meta] acc =
          Except.ok (acc ++
            [fanoutItem ti meta identifier resource_id ev acctAlias acct srv rtype reg d]) := by
      intro d acc
      simp [diskMetaLoop, hgti d]
    have hloop : ∀ (ds : List (List (String × String))) (acc : List COA.Item),
        diskLoop env catalog identifier resource_id ev [meta] ds acc =
          Except.ok (acc ++ ds.map
            (fanoutItem ti meta identifier resource_id ev acctAlias acct srv rtype reg)) := by
      intro ds
      induction ds with
      | nil => intro acc; simp [diskLoop]
      | cons d rest ih =>
        intro acc
        simp [diskLoop, hmeta d acc, ih, List.append_assoc]
    simp only [get_alarms, hid, hrid]
    rw [if_neg (by simp [hidne, hridne]), htags]
    simp only [if_neg hne]
    exact hloop disks base
  · exact List.length_map _ _

/-- The disk-metric signal fixture for C9. -/
def metaC9 : COA.DiskMeta :=
  { service := "EC2", metric := "disk_used_percent", priority_token := "P1",
    tag_value := "true" }

/-- An event carrying exactly one Linux-disk tag signal. -/
def evC9 : COA.Event :=
  { evBase with tags := [("Org:EC2:disk_used_percent:P1", "true")] }

/-- Two discovered Linux disks. -/
def disksC9 : List (List (String × String)) :=
  [[("device", "xvda1"), ("fstype", "ext4"), ("path", "/data")],
   [("device", "xvdb1"), ("fstype", "ext4"), ("path", "/mnt")]]

/-- Witness for C9: two discovered disks against a single disk-metric
signal produce exactly the two per-disk candidates. -/
theorem C9_witness :
    get_alarms envDisk catDisk evC9 disksC9 =
      Except.ok ([] ++ disksC9.map
        (fanoutItem tiDisk metaC9 "InstanceId" "i-123" evC9 "acme" "123456789012"
          "ec2" "instance" "eu-west-1")) ∧
    (disksC9.map
      (fanoutItem tiDisk metaC9 "InstanceId" "i-123" evC9 "acme" "123456789012"
        "ec2" "instance" "eu-west-1")).length = disksC9.length :=
  C9_disk_fanout envDisk catDisk evC9 disksC9 "InstanceId" "i-123" "acme"
    "123456789012" "ec2" "instance" "eu-west-1" [] metaC9 tiDisk
    rfl rfl (by decide) (by decide) rfl rfl (Or.inl rfl) rfl rfl rfl rfl rfl
    (by decide)

end COA
